import Mathlib

/-!
Verification of the file-system abstraction and path-resolution layer of the
booktalk-v2 repository, shallowly embedded in Lean 4.

The embedding follows the TypeScript source:
  - `resolvePath` and the `nativeFileSystem` operations from the native
    app-service module (src/unnamed/part_001);
  - the filename-derivation helpers from
    src/apps/readest-app/src/utils/book.ts;
  - the backend-selection logic from
    src/apps/readest-app/src/services/environment.ts.

Storage categories (the TypeScript `BaseDir` string-union) are modelled as
plain strings, matching the erased runtime representation on which the
source's `switch` dispatches; platform base-directory identifiers (Tauri's
numeric `BaseDirectory` enum) are modelled as distinct atoms of an inductive
type, since only their identity matters to the layer under verification.
External platform primitives (the plugin-fs calls, `convertFileSrc`) are
parameters of the operations that delegate to them.
-/

namespace BookTalk

/-- Platform base-directory identifier. The source stores Tauri's numeric
`BaseDirectory` enum values; only which root is chosen matters here, so the
five roots the resolver uses are distinct atoms. -/
inductive BaseDirectory where
  | appConfig
  | appData
  | appCache
  | appLog
  | temp
  deriving DecidableEq, Repr

/-- Modelled from the spec: the fixed local-books subdirectory name
(`LOCAL_BOOKS_SUBDIR` in services/constants, which is not under src/). The
spec scenario in section 8 shows resolved book paths beginning with
`local-books/`. -/
def LOCAL_BOOKS_SUBDIR : String := "local-books"

/-- The record returned by `resolvePath`: platform root identifier, the
(possibly rewritten) relative path, and the input category echoed back. -/
structure Resolved where
  baseDir : BaseDirectory
  fp : String
  base : String
  deriving DecidableEq, Repr

/-- Embedding of `resolvePath` (src/unnamed/part_001, lines 74-97). The
source's `switch` on the category string becomes a chain of string
comparisons with the same fall-through default. -/
def resolvePath (fp : String) (base : String) : Resolved :=
  if base = "Settings" then { baseDir := .appConfig, fp := fp, base := base }
  else if base = "Data" then { baseDir := .appData, fp := fp, base := base }
  else if base = "Cache" then { baseDir := .appCache, fp := fp, base := base }
  else if base = "Log" then { baseDir := .appLog, fp := fp, base := base }
  else if base = "Books" then
    { baseDir := .appData, fp := LOCAL_BOOKS_SUBDIR ++ "/" ++ fp, base := base }
  else { baseDir := .temp, fp := fp, base := base }

/-- Embedding of the `base && { baseDir }` idiom the backend passes to every
plugin-fs call: a falsy category (the empty string) passes no options, any
other category passes the resolved base directory. -/
def optBaseDir (base : String) (bd : BaseDirectory) : Option BaseDirectory :=
  if base = "" then none else some bd

/-- Embedding of `nativeFileSystem.exists` (src/unnamed/part_001, lines
151-160). The underlying platform check `plat` may fail (`Except.error`
models a thrown exception); the try/catch maps any failure to `false`. -/
def existsFS (plat : String → Option BaseDirectory → Except String Bool)
    (path : String) (base : String) : Bool :=
  match plat (resolvePath path base).fp (optBaseDir base (resolvePath path base).baseDir) with
  | .ok res => res
  | .error _ => false

/-- An entry as produced by the underlying platform `readDir`. -/
structure DirEntry where
  name : String
  isDirectory : Bool
  deriving DecidableEq, Repr

/-- An entry as returned by the backend: the source maps each platform entry
to `{ path: entity.name, isDir: entity.isDirectory }`. -/
structure FileItem where
  path : String
  isDir : Bool
  deriving DecidableEq, Repr

/-- Embedding of `nativeFileSystem.readDir` (src/unnamed/part_001, lines
140-150): resolve, delegate to the platform listing, and map each entry's
name and is-directory flag into the backend's entry record. Platform
failures propagate. -/
def readDirFS (plat : String → Option BaseDirectory → Except String (List DirEntry))
    (path : String) (base : String) : Except String (List FileItem) :=
  match plat (resolvePath path base).fp (optBaseDir base (resolvePath path base).baseDir) with
  | .ok list => .ok (list.map fun entity => { path := entity.name, isDir := entity.isDirectory })
  | .error e => .error e

/-- Embedding of `nativeFileSystem.getURL` (src/unnamed/part_001, lines
100-102). Modelled from the spec: `isValidURL` (utils/misc, not under src/)
is the predicate for being a fully-qualified URL, and `convertFileSrc` is
the external Tauri path-to-URL primitive; both are parameters. -/
def getURL (isValidURL : String → Bool) (convertFileSrc : String → String)
    (path : String) : String :=
  if isValidURL path then path else convertFileSrc path

/-- Modelled from the spec: the `Book` record (types/book is not under
src/). Only the fields the filename helpers read are needed: the
content-hash identifier, the title, and the format tag. -/
structure Book where
  hash : String
  title : String
  format : String
  deriving Repr

/-- Embedding of `getDir` (utils/book.ts). -/
def getDir (book : Book) : String :=
  book.hash

/-- Embedding of `getLibraryFilename` (utils/book.ts). -/
def getLibraryFilename : String :=
  "library.json"

/-- Embedding of `getFilename` (utils/book.ts). `makeSafeFilename` and the
format-to-extension map `EXTS` live outside src/ and are abstract in the
spec's layout (`<safeTitle>.<ext>`), so they are parameters. -/
def getFilename (makeSafeFilename : String → String) (EXTS : String → String)
    (book : Book) : String :=
  book.hash ++ "/" ++ makeSafeFilename book.title ++ "." ++ EXTS book.format

/-- Embedding of `getCoverFilename` (utils/book.ts). -/
def getCoverFilename (book : Book) : String :=
  book.hash ++ "/cover.png"

/-- Embedding of `getConfigFilename` (utils/book.ts). -/
def getConfigFilename (book : Book) : String :=
  book.hash ++ "/config.json"

/-- The only module-level mutable state in the native app-service module:
the lazily memoized OS-type string (`cachedOSType`). `resolvePath` never
reads or writes it. -/
structure ModuleState where
  cachedOSType : Option String
  deriving DecidableEq, Repr

/-- A call to `resolvePath` as a state transition on the module state: the
source body touches no module state, so the state threads through
unchanged. -/
def resolvePathCall (s : ModuleState) (fp : String) (base : String) :
    Resolved × ModuleState :=
  (resolvePath fp base, s)

/-- A backend service instance. `kind` is which implementation it is
(`"native"` or `"web"`); `id` is an allocation identity distinguishing
separately constructed instances, as JavaScript object identity does. -/
structure Service where
  kind : String
  id : Nat
  deriving DecidableEq, Repr

/-- The module-level state of services/environment.ts: the two memoization
variables (initially null) plus the allocation counter for instance
identity. -/
structure EnvState where
  nativeAppService : Option Service
  webAppService : Option Service
  nextId : Nat
  deriving DecidableEq, Repr

/-- The process environment seen by services/environment.ts: the immutable
platform variable `NEXT_PUBLIC_APP_PLATFORM`, and a schedule saying whether
the native service's `loadSettings` throws for the instance with a given
allocation id (web-service initialization failures are not modelled; no
claim depends on them). -/
structure Env where
  platform : String
  loadSettingsFails : Nat → Bool

/-- Embedding of `isTauriAppPlatform` (services/environment.ts, line 11). -/
def isTauriAppPlatform (env : Env) : Bool :=
  env.platform == "tauri"

/-- Embedding of `getWebAppService` (services/environment.ts, lines 46-54):
construct and memoize on first call, return the memoized instance after. -/
def getWebAppService (s : EnvState) : Service × EnvState :=
  match s.webAppService with
  | some sv => (sv, s)
  | none =>
    let sv : Service := { kind := "web", id := s.nextId }
    (sv, { s with webAppService := some sv, nextId := s.nextId + 1 })

/-- Embedding of `getNativeAppService` (services/environment.ts, lines
30-44). When the memoization variable is null the source assigns the new
instance to it and then awaits `loadSettings`; if that throws, the catch
returns the web service while the assignment to `nativeAppService`
persists. -/
def getNativeAppService (env : Env) (s : EnvState) : Service × EnvState :=
  match s.nativeAppService with
  | some sv => (sv, s)
  | none =>
    let sv : Service := { kind := "native", id := s.nextId }
    let s1 : EnvState := { s with nativeAppService := some sv, nextId := s.nextId + 1 }
    if env.loadSettingsFails sv.id then getWebAppService s1 else (sv, s1)

/-- Embedding of `environmentConfig.getAppService` (services/environment.ts,
lines 56-69): the platform variable is consulted on each call to pick the
branch. The outer try/catch never fires in this model because
`getNativeAppService` already handles its own failure internally. -/
def getAppService (env : Env) (s : EnvState) : Service × EnvState :=
  if isTauriAppPlatform env then getNativeAppService env s else getWebAppService s

/-- Helper: resolution under the Books category rewrites the path under the
local-books subdirectory of the application-data root. -/
theorem resolvePath_books_def (p : String) :
    resolvePath p "Books" =
      { baseDir := .appData, fp := LOCAL_BOOKS_SUBDIR ++ "/" ++ p, base := "Books" } := by
  rfl

/-- Claim C1. For every relative path `p`, resolving `p` under the Books
category yields the application-data root, and a relative path equal to the
fixed local-books subdirectory name, a slash, then `p`. -/
theorem c1_resolve_books (p : String) :
    (resolvePath p "Books").baseDir = BaseDirectory.appData ∧
    (resolvePath p "Books").fp = LOCAL_BOOKS_SUBDIR ++ "/" ++ p := by
  rw [resolvePath_books_def]
  exact ⟨rfl, rfl⟩

/-- Claim C2. For every relative path `p` and every category other than
Books — Settings, Data, Cache, Log, None, or any unrecognized string — the
resolved relative path is `p` unchanged, and the chosen root does not depend
on the path, only on the category. -/
theorem c2_resolve_non_books_identity (p q c : String) (h : c ≠ "Books") :
    (resolvePath p c).fp = p ∧
    (resolvePath p c).baseDir = (resolvePath q c).baseDir := by
  unfold resolvePath
  split_ifs <;> simp_all

/-- Witness for C2 at a concrete non-Books category. -/
theorem c2_resolve_non_books_identity_witness :
    (resolvePath "settings.json" "Settings").fp = "settings.json" ∧
    (resolvePath "settings.json" "Settings").baseDir =
      (resolvePath "other.json" "Settings").baseDir :=
  c2_resolve_non_books_identity "settings.json" "other.json" "Settings" (by decide)

/-- Claim C3. Resolution is total with no error case: for the category
`None` and for any string that is not one of the recognized categories, it
returns the temporary root with the relative path unchanged (and the
category echoed back) instead of failing. -/
theorem c3_resolve_fallback_temp (p c : String)
    (h : c ≠ "Settings" ∧ c ≠ "Data" ∧ c ≠ "Cache" ∧ c ≠ "Log" ∧ c ≠ "Books") :
    resolvePath p c = { baseDir := .temp, fp := p, base := c } := by
  obtain ⟨h1, h2, h3, h4, h5⟩ := h
  unfold resolvePath
  split_ifs <;> simp_all

/-- Witness for C3 at the category `None` and at an unrecognized string. -/
theorem c3_resolve_fallback_temp_witness :
    resolvePath "scratch/x.tmp" "None" =
      { baseDir := BaseDirectory.temp, fp := "scratch/x.tmp", base := "None" } ∧
    resolvePath "scratch/x.tmp" "Bogus" =
      { baseDir := BaseDirectory.temp, fp := "scratch/x.tmp", base := "Bogus" } :=
  ⟨c3_resolve_fallback_temp "scratch/x.tmp" "None" (by decide),
   c3_resolve_fallback_temp "scratch/x.tmp" "Bogus" (by decide)⟩

/-- Claim C4. The `exists` operation returns a boolean for every path and
category (it is a total function into `Bool`), and whenever the underlying
platform existence check fails, the failure is swallowed and reported as
`false` rather than propagated. -/
theorem c4_exists_swallows_errors
    (plat : String → Option BaseDirectory → Except String Bool)
    (p base e : String)
    (h : plat (resolvePath p base).fp (optBaseDir base (resolvePath p base).baseDir) =
      Except.error e) :
    existsFS plat p base = false := by
  unfold existsFS
  rw [h]

/-- Witness for C4: a platform check that always throws is reported as
`false`. -/
theorem c4_exists_swallows_errors_witness :
    existsFS (fun _ _ => Except.error "io failure") "a.epub" "Data" = false :=
  c4_exists_swallows_errors (fun _ _ => Except.error "io failure") "a.epub" "Data"
    "io failure" rfl

/-- Claim C5. Resolution is deterministic and pure: invoked as a call
against the module state, the result depends only on the `(path, category)`
arguments — not on the module state — and the module state is returned
unchanged, so two calls with the same arguments give the same
`ResolvedLocation`. -/
theorem c5_resolve_pure (s1 s2 : ModuleState) (p c : String) :
    (resolvePathCall s1 p c).1 = (resolvePathCall s2 p c).1 ∧
    (resolvePathCall s1 p c).2 = s1 :=
  ⟨rfl, rfl⟩

/-- Claim C6. `readDir` maps each entry produced by the underlying platform
listing to a record carrying that entry's name and its is-directory flag,
and an empty directory yields an empty sequence, not an error. -/
theorem c6_readdir_maps_entries
    (plat : String → Option BaseDirectory → Except String (List DirEntry))
    (p base : String) (l : List DirEntry)
    (h : plat (resolvePath p base).fp (optBaseDir base (resolvePath p base).baseDir) =
      Except.ok l) :
    readDirFS plat p base =
      Except.ok (l.map fun entity => { path := entity.name, isDir := entity.isDirectory }) ∧
    (l = [] → readDirFS plat p base = Except.ok []) := by
  constructor
  · unfold readDirFS
    rw [h]
  · intro hl
    subst hl
    unfold readDirFS
    rw [h]
    rfl

/-- Witness for C6: a two-entry listing is mapped field-for-field, and an
empty listing yields the empty sequence. -/
theorem c6_readdir_maps_entries_witness :
    readDirFS
        (fun _ _ => Except.ok [⟨"b.epub", false⟩, ⟨"covers", true⟩]) "lib" "Data" =
      Except.ok [{ path := "b.epub", isDir := false }, { path := "covers", isDir := true }] ∧
    readDirFS (fun _ _ => Except.ok []) "emptydir" "Data" = Except.ok [] :=
  ⟨(c6_readdir_maps_entries (fun _ _ => Except.ok [⟨"b.epub", false⟩, ⟨"covers", true⟩])
      "lib" "Data" [⟨"b.epub", false⟩, ⟨"covers", true⟩] rfl).1,
   (c6_readdir_maps_entries (fun _ _ => Except.ok []) "emptydir" "Data" [] rfl).2 rfl⟩

/-- Claim C7 counterexample. On the tauri platform, when the native
service's `loadSettings` throws during the first call (allocation id 0), the
first `getAppService` call returns the web fallback while the second call
returns the memoized native instance: two calls return different backend
instances, so the claim that every call returns the same instance is false. -/
theorem c7_not_same_instance_counterexample :
    ¬ ((getAppService { platform := "tauri", loadSettingsFails := fun n => n == 0 }
          { nativeAppService := none, webAppService := none, nextId := 0 }).1 =
       (getAppService { platform := "tauri", loadSettingsFails := fun n => n == 0 }
          ((getAppService { platform := "tauri", loadSettingsFails := fun n => n == 0 }
            { nativeAppService := none, webAppService := none, nextId := 0 }).2)).1) := by
  decide

/-- Claim C7 (amended). The backend instance is created lazily on first
`getAppService` call and memoized in a module variable; the platform kind is
re-read on each call, but from an immutable environment value, so every call
takes the same branch. Provided native initialization does not fail, a
repeated call returns the same backend instance as the previous call and
leaves the module state unchanged. -/
theorem c7_memoized_backend (env : Env) (s : EnvState)
    (h : ∀ n, env.loadSettingsFails n = false) :
    (getAppService env ((getAppService env s).2)).1 = (getAppService env s).1 ∧
    (getAppService env ((getAppService env s).2)).2 = (getAppService env s).2 := by
  unfold getAppService getNativeAppService getWebAppService
  by_cases hp : isTauriAppPlatform env = true
  · rcases hn : s.nativeAppService with _ | sv
    · simp [hp, hn, h]
    · simp [hp, hn]
  · rcases hw : s.webAppService with _ | sv
    · simp [hp, hw]
    · simp [hp, hw]

/-- Witness for the amended C7: with the tauri platform and no
initialization failures, the second call returns the instance the first call
returned. -/
theorem c7_memoized_backend_witness :
    (getAppService { platform := "tauri", loadSettingsFails := fun _ => false }
        ((getAppService { platform := "tauri", loadSettingsFails := fun _ => false }
          { nativeAppService := none, webAppService := none, nextId := 0 }).2)).1 =
      (getAppService { platform := "tauri", loadSettingsFails := fun _ => false }
        { nativeAppService := none, webAppService := none, nextId := 0 }).1 :=
  (c7_memoized_backend { platform := "tauri", loadSettingsFails := fun _ => false }
    { nativeAppService := none, webAppService := none, nextId := 0 }
    (fun _ => rfl)).1

/-- Claim C8. For every book, resolving the derived filenames under the
Books category places the book file at `<bookHash>/<safeTitle>.<ext>`, the
cover at `<bookHash>/cover.png`, and the per-book config at
`<bookHash>/config.json`, all under the books root; the library manifest is
the top-level `library.json`. -/
theorem c8_persisted_layout (makeSafeFilename EXTS : String → String) (b : Book) :
    (resolvePath (getFilename makeSafeFilename EXTS b) "Books").fp =
      LOCAL_BOOKS_SUBDIR ++ "/" ++ b.hash ++ "/" ++ makeSafeFilename b.title ++ "." ++
        EXTS b.format ∧
    (resolvePath (getCoverFilename b) "Books").fp =
      LOCAL_BOOKS_SUBDIR ++ "/" ++ b.hash ++ "/cover.png" ∧
    (resolvePath (getConfigFilename b) "Books").fp =
      LOCAL_BOOKS_SUBDIR ++ "/" ++ b.hash ++ "/config.json" ∧
    getLibraryFilename = "library.json" := by
  refine ⟨?_, ?_, ?_, rfl⟩ <;>
    simp [resolvePath_books_def, getFilename, getCoverFilename, getConfigFilename,
      String.append_assoc]

/-- Claim C9. `getURL` returns its input unchanged when the input is already
a fully-qualified URL, and otherwise converts the local path with the
backend's path-to-URL primitive. -/
theorem c9_geturl (isValidURL : String → Bool) (convertFileSrc : String → String)
    (path : String) :
    (isValidURL path = true → getURL isValidURL convertFileSrc path = path) ∧
    (isValidURL path = false →
      getURL isValidURL convertFileSrc path = convertFileSrc path) := by
  constructor <;> intro h <;> simp [getURL, h]

/-- Witness for C9 at a concrete URL predicate and converter. -/
theorem c9_geturl_witness :
    getURL (fun s => s == "https://example.com/a") (fun s => "asset://localhost" ++ s)
        "https://example.com/a" = "https://example.com/a" ∧
    getURL (fun s => s == "https://example.com/a") (fun s => "asset://localhost" ++ s)
        "/tmp/b.png" = "asset://localhost/tmp/b.png" :=
  ⟨(c9_geturl (fun s => s == "https://example.com/a") (fun s => "asset://localhost" ++ s)
      "https://example.com/a").1 (by decide),
   (c9_geturl (fun s => s == "https://example.com/a") (fun s => "asset://localhost" ++ s)
      "/tmp/b.png").2 (by decide)⟩

/-- Claim C10. For every input path and category — recognized or not — the
resolved record carries the input category unchanged in its category field,
including when resolution falls back to the temporary root. -/
theorem c10_category_preserved (p c : String) : (resolvePath p c).base = c := by
  unfold resolvePath
  split_ifs <;> rfl

end BookTalk
